import Mathlib

/-!
Verification development for a multi-market paper-trading engine
(A-share / Hong Kong / US simulated equity trading).

The Python source is embedded shallowly:

* floats are modelled as exact rationals (`ℚ`);
* `None`-able configuration values are `Option ℚ`;
* Python `str.upper` / `str.strip` on the ASCII inputs used here are
  modelled structurally on the character list;
* local calendar dates are modelled by their proleptic-Gregorian day
  number (the value of Python `date.toordinal`), and times of day by the
  minute of the local day (all session boundaries in the source are whole
  minutes);
* the storage collaborator is modelled as in-memory association lists.

Classes that live outside the extracted source tree (the `models/`
entities and `data_storage`) are modelled from the design document and
are marked `Modelled from the spec:` in their doc comments.
-/

namespace PaperTrading

/-- Python `str.upper` restricted to the ASCII strings used by the engine
(currency codes, market codes, stock codes). -/
def pyUpper (s : String) : String := ⟨s.data.map Char.toUpper⟩

/-- Python `str.strip`: drop whitespace from both ends. -/
def pyStrip (s : String) : String :=
  ⟨((s.data.dropWhile Char.isWhitespace).reverse.dropWhile Char.isWhitespace).reverse⟩

/-- Plugin configuration read through `get_plugin_config_value`; a `none`
field means the key is absent and the call site's default applies. -/
structure Config where
  commission_rate : Option ℚ := none
  transfer_fee_rate : Option ℚ := none
  stamp_tax_rate : Option ℚ := none
  hkd_to_cny_rate : Option ℚ := none
  usd_to_cny_rate : Option ℚ := none

/-- Configuration with every key absent (all call-site defaults apply). -/
def defaultConfig : Config := {}

/-- CurrencyService.get_exchange_rate (currency_service.py lines 12-59):
rate from `from_cur` to `to_cur`.  Same currency gives exactly 1;
HKD→CNY and USD→CNY read the configured rate (defaults 0.92 / 7.20) and
floor it at 0.0001; CNY→HKD and CNY→USD substitute the default for a
configured rate ≤ 0 and return the reciprocal; any other pair gives 1. -/
def get_exchange_rate (cfg : Config) (from_cur to_cur : String) : ℚ :=
  let fc := pyUpper from_cur
  let tc := pyUpper to_cur
  if fc = tc then 1
  else if fc = "HKD" ∧ tc = "CNY" then
    max (cfg.hkd_to_cny_rate.getD 0.92) 0.0001
  else if fc = "USD" ∧ tc = "CNY" then
    max (cfg.usd_to_cny_rate.getD 7.2) 0.0001
  else if fc = "CNY" ∧ tc = "HKD" then
    let hkd_rate := cfg.hkd_to_cny_rate.getD 0.92
    1 / (if hkd_rate ≤ 0 then 0.92 else hkd_rate)
  else if fc = "CNY" ∧ tc = "USD" then
    let usd_rate := cfg.usd_to_cny_rate.getD 7.2
    1 / (if usd_rate ≤ 0 then 7.2 else usd_rate)
  else 1

/-- CurrencyService.convert_amount (lines 61-74). -/
def convert_amount (cfg : Config) (amount : ℚ) (from_cur to_cur : String) : ℚ :=
  amount * get_exchange_rate cfg from_cur to_cur

/-- CurrencyService.get_currency_by_market (lines 76-91): dictionary get
with default CNY. -/
def get_currency_by_market (market : String) : String :=
  let m := pyUpper market
  if m = "A" then "CNY"
  else if m = "HK" then "HKD"
  else if m = "US" then "USD"
  else "CNY"

/-- CurrencyService.convert_to_cny (lines 93-105). -/
def convert_to_cny (cfg : Config) (amount : ℚ) (market : String) : ℚ :=
  convert_amount cfg amount (get_currency_by_market market) "CNY"

/-- Market codes used by the engine; the source passes them around as the
strings "A", "HK", "US" (the keys of `market_configs` and the fee
tables). -/
inductive Market
  | A
  | HK
  | US
deriving DecidableEq, Repr

/-- String form of a market code, as passed to the currency service. -/
def marketStr : Market → String
  | .A => "A"
  | .HK => "HK"
  | .US => "US"

/-- MarketRulesEngine.calculate_commission (market_rules.py lines
195-219).  The per-market minimum (5/50/1, commented as CNY) is divided
by `get_exchange_rate("CNY", market)` — note the second argument is the
market code, not a currency code. -/
def calculate_commission (cfg : Config) (amount : ℚ) (market : Market) : ℚ :=
  let commission_rate := cfg.commission_rate.getD 0.0003
  let min_commission_cny : ℚ :=
    match market with
    | .A => 5
    | .HK => 50
    | .US => 1
  let min_commission_local := min_commission_cny / get_exchange_rate cfg "CNY" (marketStr market)
  max (amount * commission_rate) min_commission_local

/-- Stamp tax added on the buy side (market_rules.py line 140:
`0 if market == 'A' else 0`). -/
def buy_stamp_tax (market : Market) : ℚ :=
  if market = .A then 0 else 0

/-- Transfer fee (market_rules.py lines 143-146 and 184-187, identical on
both sides): A-shares only, `max(1, amount * transfer_fee_rate)`. -/
def transfer_fee (cfg : Config) (amount : ℚ) (market : Market) : ℚ :=
  if market = .A then max 1 (amount * cfg.transfer_fee_rate.getD 0.00002) else 0

/-- Stamp tax charged on the sell side (market_rules.py lines 172-181):
configured rate (default 0.1%) for A-shares, fixed 0.1% for HK, none for
US. -/
def sell_stamp_tax (cfg : Config) (amount : ℚ) (market : Market) : ℚ :=
  match market with
  | .A => amount * cfg.stamp_tax_rate.getD 0.001
  | .HK => amount * 0.001
  | .US => 0

/-- MarketRulesEngine.calculate_buy_amount (market_rules.py lines
122-152): principal plus commission, buy-side stamp tax and transfer
fee, all in the stock's native currency, converted to CNY. -/
def calculate_buy_amount (cfg : Config) (volume : ℕ) (price : ℚ) (market : Market) : ℚ :=
  let stock_amount_local := (volume : ℚ) * price
  let commission_local := calculate_commission cfg stock_amount_local market
  let stamp_tax_local := buy_stamp_tax market
  let transfer_fee_local := transfer_fee cfg stock_amount_local market
  convert_to_cny cfg
    (stock_amount_local + commission_local + stamp_tax_local + transfer_fee_local)
    (marketStr market)

/-- MarketRulesEngine.calculate_sell_amount (market_rules.py lines
154-193): principal minus commission, sell-side stamp tax and transfer
fee, converted to CNY. -/
def calculate_sell_amount (cfg : Config) (volume : ℕ) (price : ℚ) (market : Market) : ℚ :=
  let stock_amount_local := (volume : ℚ) * price
  let commission_local := calculate_commission cfg stock_amount_local market
  let stamp_tax_local := sell_stamp_tax cfg stock_amount_local market
  let transfer_fee_local := transfer_fee cfg stock_amount_local market
  convert_to_cny cfg
    (stock_amount_local - commission_local - stamp_tax_local - transfer_fee_local)
    (marketStr market)

/-! Market time (market_time.py).  Dates are proleptic-Gregorian day
numbers (Python `date.toordinal`); times of day are minutes of the local
day.  The source converts a UTC instant to the market's local clock by a
fixed offset before every check, so all functions below take the already
converted market-local instant. -/

/-- Gregorian leap-year test. -/
def isLeapYear (y : Nat) : Bool :=
  y % 4 == 0 && (y % 100 != 0 || y % 400 == 0)

/-- Days in all years before year `y` (proleptic Gregorian). -/
def daysBeforeYear (y : Nat) : Nat :=
  365 * (y - 1) + (y - 1) / 4 - (y - 1) / 100 + (y - 1) / 400

/-- Cumulative days before month `m` in a year. -/
def daysBeforeMonth (leap : Bool) (m : Nat) : Nat :=
  (match m with
   | 1 => 0 | 2 => 31 | 3 => 59 | 4 => 90 | 5 => 120 | 6 => 151
   | 7 => 181 | 8 => 212 | 9 => 243 | 10 => 273 | 11 => 304 | 12 => 334
   | _ => 0)
  + (if 3 ≤ m then (if leap then 1 else 0) else 0)

/-- Python `date(y, m, d).toordinal()`. -/
def dateOrdinal (y m d : Nat) : Nat :=
  daysBeforeYear y + daysBeforeMonth (isLeapYear y) m + d

/-- Python `date.weekday()`: Monday = 0 … Sunday = 6. -/
def weekdayOf (ordinal : Nat) : Nat := (ordinal + 6) % 7

/-- MarketTimeManager.is_weekday (lines 185-199). -/
def is_weekday (ordinal : Nat) : Bool := weekdayOf ordinal < 5

/-- A-share holiday list (market_time.py lines 66-109).  `currentYear` is
the year read from the clock when the manager is constructed; the Spring
Festival entries are fixed 2024/2025 dates appended unconditionally. -/
def chinese_holidays (currentYear : Nat) : List Nat :=
  [dateOrdinal currentYear 1 1]
  ++ [dateOrdinal 2024 2 10, dateOrdinal 2024 2 11, dateOrdinal 2024 2 12,
      dateOrdinal 2024 2 13, dateOrdinal 2024 2 14, dateOrdinal 2024 2 15,
      dateOrdinal 2024 2 16,
      dateOrdinal 2025 1 29, dateOrdinal 2025 1 30, dateOrdinal 2025 1 31,
      dateOrdinal 2025 2 1, dateOrdinal 2025 2 2, dateOrdinal 2025 2 3,
      dateOrdinal 2025 2 4]
  ++ [dateOrdinal currentYear 4 4, dateOrdinal currentYear 4 5, dateOrdinal currentYear 4 6]
  ++ [dateOrdinal currentYear 5 1, dateOrdinal currentYear 5 2, dateOrdinal currentYear 5 3]
  ++ [dateOrdinal currentYear 6 10]
  ++ [dateOrdinal currentYear 9 15, dateOrdinal currentYear 9 16, dateOrdinal currentYear 9 17]
  ++ [dateOrdinal currentYear 10 1, dateOrdinal currentYear 10 2, dateOrdinal currentYear 10 3,
      dateOrdinal currentYear 10 4, dateOrdinal currentYear 10 5, dateOrdinal currentYear 10 6,
      dateOrdinal currentYear 10 7]

/-- HK holiday list (lines 111-128): the A-share list plus HK-only dates. -/
def hk_holidays (currentYear : Nat) : List Nat :=
  chinese_holidays currentYear
  ++ [dateOrdinal currentYear 4 1, dateOrdinal currentYear 4 2,
      dateOrdinal currentYear 7 1,
      dateOrdinal currentYear 12 25, dateOrdinal currentYear 12 26]

/-- US holiday list (lines 130-174): fixed federal dates plus floating
holidays hard-coded for 2024 and 2025 only. -/
def us_holidays (currentYear : Nat) : List Nat :=
  [dateOrdinal currentYear 1 1, dateOrdinal currentYear 7 4,
   dateOrdinal currentYear 11 11, dateOrdinal currentYear 12 25]
  ++ (if currentYear = 2024 then [dateOrdinal 2024 1 15]
      else if currentYear = 2025 then [dateOrdinal 2025 1 20] else [])
  ++ (if currentYear = 2024 then [dateOrdinal 2024 2 19]
      else if currentYear = 2025 then [dateOrdinal 2025 2 17] else [])
  ++ (if currentYear = 2024 then [dateOrdinal 2024 5 27]
      else if currentYear = 2025 then [dateOrdinal 2025 5 26] else [])
  ++ (if currentYear = 2024 then [dateOrdinal 2024 9 2]
      else if currentYear = 2025 then [dateOrdinal 2025 9 1] else [])
  ++ (if currentYear = 2024 then [dateOrdinal 2024 10 14]
      else if currentYear = 2025 then [dateOrdinal 2025 10 13] else [])

/-- Holiday set per market (`market_configs[market]['holidays']`). -/
def marketHolidays (currentYear : Nat) : Market → List Nat
  | .A => chinese_holidays currentYear
  | .HK => hk_holidays currentYear
  | .US => us_holidays currentYear

/-- MarketTimeManager.is_holiday (lines 201-219). -/
def is_holiday (currentYear : Nat) (ordinal : Nat) (market : Market) : Bool :=
  (marketHolidays currentYear market).contains ordinal

/-- MarketTimeManager.is_trading_day (lines 221-238): weekday and not a
holiday. -/
def is_trading_day (currentYear : Nat) (ordinal : Nat) (market : Market) : Bool :=
  is_weekday ordinal && !(is_holiday currentYear ordinal market)

/-- Regular sessions in local minutes (`market_configs[*]['trading_sessions']`). -/
def trading_sessions : Market → List (Nat × Nat)
  | .A => [(570, 690), (780, 900)]
  | .HK => [(570, 720), (780, 960)]
  | .US => [(570, 960)]

/-- Call-auction sessions (`call_auction_sessions`, absent for US). -/
def call_auction_sessions : Market → List (Nat × Nat)
  | .A => [(555, 565), (897, 900)]
  | .HK => [(570, 600), (720, 780)]
  | .US => []

/-- US-only pre-market window. -/
def pre_market_sessions : Market → List (Nat × Nat)
  | .US => [(240, 570)]
  | _ => []

/-- US-only after-hours window. -/
def after_hours_sessions : Market → List (Nat × Nat)
  | .US => [(960, 1200)]
  | _ => []

/-- US-only overnight windows: first half 20:00-23:59, second half
00:00-04:00. -/
def overnight_sessions : Market → List (Nat × Nat)
  | .US => [(1200, 1439), (0, 240)]
  | _ => []

/-- Market-local instant: calendar day ordinal plus minute of day. -/
structure LocalDT where
  ordinal : Nat
  minute : Nat
deriving DecidableEq, Repr

/-- Membership test `start <= t <= end` over a session list. -/
def inAnySession (sessions : List (Nat × Nat)) (t : Nat) : Bool :=
  sessions.any (fun s => s.1 ≤ t && t ≤ s.2)

/-- MarketTimeManager.is_trading_time (lines 264-297). -/
def is_trading_time (currentYear : Nat) (dt : LocalDT) (market : Market) : Bool :=
  is_trading_day currentYear dt.ordinal market
    && inAnySession (trading_sessions market) dt.minute

/-- MarketTimeManager.is_call_auction_time (lines 432-465). -/
def is_call_auction_time (currentYear : Nat) (dt : LocalDT) (market : Market) : Bool :=
  is_trading_day currentYear dt.ordinal market
    && inAnySession (call_auction_sessions market) dt.minute

/-- MarketTimeManager.is_pre_market_time (lines 299-336): US only. -/
def is_pre_market_time (currentYear : Nat) (dt : LocalDT) (market : Market) : Bool :=
  if market ≠ .US then false
  else is_trading_day currentYear dt.ordinal market
    && inAnySession (pre_market_sessions market) dt.minute

/-- MarketTimeManager.is_after_hours_time (lines 338-375): US only. -/
def is_after_hours_time (currentYear : Nat) (dt : LocalDT) (market : Market) : Bool :=
  if market ≠ .US then false
  else is_trading_day currentYear dt.ordinal market
    && inAnySession (after_hours_sessions market) dt.minute

/-- MarketTimeManager.is_overnight_trading_time (lines 377-430).  The
first half checks the current date (`prev_trading_day` in the source);
the second half checks the current date plus one day (the source's
`next_trading_day = date.fromordinal(toordinal() + 1)`). -/
def is_overnight_trading_time (currentYear : Nat) (dt : LocalDT) (market : Market) : Bool :=
  if market ≠ .US then false
  else
    let t := dt.minute
    let prev_trading_day := dt.ordinal
    let next_trading_day := dt.ordinal + 1
    if 1200 ≤ t ∧ t ≤ 1439 then
      if is_trading_day currentYear prev_trading_day market then
        match overnight_sessions market with
        | s :: _ => s.1 ≤ t && t ≤ s.2
        | [] => false
      else false
    else if t ≤ 240 then
      if is_trading_day currentYear next_trading_day market then
        match overnight_sessions market with
        | _ :: s :: _ => s.1 ≤ t && t ≤ s.2
        | _ => false
      else false
    else false

/-- MarketTimeManager.can_place_order (lines 629-694): session gate with a
reason string (number formatting elided from the messages). -/
def can_place_order (currentYear : Nat) (dt : LocalDT) (market : Market) : Bool × String :=
  if !(is_trading_day currentYear dt.ordinal market) then
    if !(is_weekday dt.ordinal) then (false, "市场今日为周末，不可交易")
    else (false, "市场今日为法定节假日，不可交易")
  else
    let t := dt.minute
    if is_trading_time currentYear dt market then (true, "市场正常交易时间")
    else if is_call_auction_time currentYear dt market then (true, "市场集合竞价时间")
    else if market = .US ∧ is_pre_market_time currentYear dt market then
      (true, "美股盘前交易时间")
    else if market = .US ∧ is_after_hours_time currentYear dt market then
      (true, "美股盘后交易时间")
    else if market = .US ∧ is_overnight_trading_time currentYear dt market then
      (true, "美股夜盘交易时间（长桥）")
    else if market = .A then
      if t < 555 then (false, "A股尚未到开盘时间")
      else if 565 < t ∧ t < 570 then (false, "A股开盘前准备时间")
      else if 690 < t ∧ t < 780 then (false, "A股午间休市时间")
      else if 900 < t then (false, "A股已过收盘时间")
      else (false, "市场非交易时间")
    else if market = .HK then
      if t < 570 then (false, "港股尚未到开盘时间")
      else if 720 < t ∧ t < 780 then (false, "港股午间休市时间")
      else if 960 < t then (false, "港股已过收盘时间")
      else (false, "市场非交易时间")
    else (false, "市场非交易时间")

/-! Validators (utils/validators.py). -/

/-- Validators.is_valid_volume (validators.py lines 83-87): positive and a
multiple of 100, with no market parameter. -/
def is_valid_volume (volume : Int) : Bool :=
  volume > 0 && volume % 100 == 0

/-- Validators.is_valid_price (lines 78-81). -/
def is_valid_price (price : ℚ) : Bool :=
  price > 0 && price < 10000

/-- Digit-string value, or `none` when empty or not all digits. -/
def digitsToNat (l : List Char) : Option Nat :=
  if l.isEmpty then none
  else if l.all Char.isDigit then
    some (l.foldl (fun acc c => acc * 10 + (c.toNat - 48)) 0)
  else none

/-- Python `int(s)` on the plain decimal strings the bot accepts
(`ValueError` becomes `none`). -/
def pyInt (s : String) : Option Int :=
  match s.data with
  | '-' :: rest => (digitsToNat rest).map (fun n => -(n : Int))
  | '+' :: rest => (digitsToNat rest).map (fun n => (n : Int))
  | l => (digitsToNat l).map (fun n => (n : Int))

/-- Python `float(s)` on plain decimal notation (`ValueError` becomes
`none`). -/
def pyFloat (s : String) : Option ℚ :=
  let core : List Char → Option ℚ := fun l =>
    match l.splitOn '.' with
    | [ip] => (digitsToNat ip).map (fun n => (n : ℚ))
    | [ip, fp] =>
      match digitsToNat ip, digitsToNat fp with
      | some i, some f => some ((i : ℚ) + (f : ℚ) / (10 ^ fp.length))
      | _, _ => none
    | _ => none
  match s.data with
  | '-' :: rest => (core rest).map (fun q => -q)
  | '+' :: rest => core rest
  | l => core l

/-- Test for the A-share code regex `^(00|30|60|68|43|83|87)\d4$` (six
characters: a listed two-digit venue code and four more digits). -/
def isAStockPattern (s : String) : Bool :=
  match s.data with
  | [a, b, c, d, e, f] =>
    [('0', '0'), ('3', '0'), ('6', '0'), ('6', '8'),
     ('4', '3'), ('8', '3'), ('8', '7')].contains (a, b)
      && c.isDigit && d.isDigit && e.isDigit && f.isDigit
  | _ => false

/-- Validators.normalize_stock_code (validators.py lines 58-76): empty
input fails; an A-share-shaped code is kept unless it is one of the three
excluded index codes; anything else passes through stripped and
upper-cased. -/
def normalize_stock_code (code : String) : Option String :=
  if code = "" then none
  else
    let c := pyUpper (pyStrip code)
    if isAStockPattern c then
      if ["399001", "399005", "399006"].contains c then none else some c
    else some c

/-- Result dictionary of Validators.parse_order_params. -/
structure OrderParams where
  stock_code : Option String
  volume : Option Int
  price : Option ℚ
  is_market_order : Bool
  error : Option String
deriving Repr

/-- Validators.parse_order_params (validators.py lines 116-162): code,
then volume, then optional limit price, stopping at the first invalid
field (messages keep the fixed text, number formatting elided). -/
def parse_order_params (params : List String) : OrderParams :=
  match params with
  | p0 :: p1 :: rest =>
    match normalize_stock_code p0 with
    | none =>
      { stock_code := none, volume := none, price := none,
        is_market_order := true, error := some "无效的股票代码" }
    | some code =>
      match pyInt p1 with
      | none =>
        { stock_code := some code, volume := none, price := none,
          is_market_order := true, error := some "无效的数量格式" }
      | some volume =>
        if !(is_valid_volume volume) then
          { stock_code := some code, volume := none, price := none,
            is_market_order := true, error := some "无效的交易数量，必须是100的倍数" }
        else
          match rest with
          | [] =>
            { stock_code := some code, volume := some volume, price := none,
              is_market_order := true, error := none }
          | p2 :: _ =>
            match pyFloat p2 with
            | none =>
              { stock_code := some code, volume := some volume, price := none,
                is_market_order := true, error := some "无效的价格格式" }
            | some price =>
              if !(is_valid_price price) then
                { stock_code := some code, volume := some volume, price := none,
                  is_market_order := true, error := some "无效的价格" }
              else
                { stock_code := some code, volume := some volume, price := some price,
                  is_market_order := false, error := none }
  | _ =>
    { stock_code := none, volume := none, price := none,
      is_market_order := true, error := some "参数不足，至少需要股票代码和数量" }

/-! Entity models.  The `models/` package is not part of the extracted
source tree; these are modelled from the design document's data-model
section. -/

/-- Order side. -/
inductive OrderType
  | buy
  | sell
deriving DecidableEq, Repr

/-- Price type: market or limit. -/
inductive PriceType
  | market
  | limit
deriving DecidableEq, Repr

/-- Order status; transitions are pending → filled or pending →
cancelled. -/
inductive OrderStatus
  | pending
  | filled
  | cancelled
deriving DecidableEq, Repr

/-- Modelled from the spec: the Order record of the data model (id, user,
stock, side, price type, price, volumes, status). -/
structure Order where
  order_id : String
  user_id : String
  stock_code : String
  stock_name : String
  order_type : OrderType
  price_type : PriceType
  order_price : ℚ
  order_volume : ℕ
  filled_volume : ℕ
  filled_amount : ℚ
  status : OrderStatus
deriving Repr

/-- Modelled from the spec: Order.is_market_order. -/
def Order.is_market_order (o : Order) : Bool :=
  match o.price_type with
  | .market => true
  | .limit => false

/-- Modelled from the spec: Order.is_buy_order. -/
def Order.is_buy_order (o : Order) : Bool :=
  match o.order_type with
  | .buy => true
  | .sell => false

/-- Modelled from the spec: Order.is_pending. -/
def Order.is_pending (o : Order) : Bool :=
  match o.status with
  | .pending => true
  | _ => false

/-- Modelled from the spec: Order.cancel_order marks the order CANCELLED. -/
def Order.cancel_order (o : Order) : Order :=
  { o with status := .cancelled }

/-- Modelled from the spec: Order.fill_order marks the order FILLED with
the filled volume and amount. -/
def Order.fill_order (o : Order) (volume : ℕ) (price : ℚ) : Order :=
  { o with status := .filled, filled_volume := volume,
           filled_amount := (volume : ℚ) * price }

/-- Modelled from the spec: the User record (cash balance and derived
total assets, both in the settlement currency CNY). -/
structure User where
  user_id : String
  balance : ℚ
  total_assets : ℚ
deriving Repr

/-- Modelled from the spec: User.can_buy — the settlement-currency cost
must not exceed the balance. -/
def User.can_buy (u : User) (cost : ℚ) : Bool :=
  cost ≤ u.balance

/-- Modelled from the spec: User.deduct_balance. -/
def User.deduct_balance (u : User) (amount : ℚ) : User :=
  { u with balance := u.balance - amount }

/-- Modelled from the spec: User.add_balance. -/
def User.add_balance (u : User) (amount : ℚ) : User :=
  { u with balance := u.balance + amount }

/-- Modelled from the spec: User.update_total_assets overwrites the
derived total. -/
def User.update_total_assets (u : User) (v : ℚ) : User :=
  { u with total_assets := v }

/-- Modelled from the spec: the Position record (T+1 tracked through
available_volume ≤ total_volume). -/
structure Position where
  user_id : String
  stock_code : String
  stock_name : String
  total_volume : ℕ
  available_volume : ℕ
  avg_cost : ℚ
  total_cost : ℚ
  market_value : ℚ
  last_price : ℚ
  market : Market
deriving Repr

/-- Modelled from the spec: Position.is_empty — a position with zero
total volume. -/
def Position.is_empty (p : Position) : Bool :=
  p.total_volume == 0

/-- Modelled from the spec: Position.can_sell — the requested volume must
not exceed available_volume (T+1). -/
def Position.can_sell (p : Position) (volume : ℕ) : Bool :=
  volume ≤ p.available_volume

/-- Modelled from the spec: Position.reduce_position removes shares from
both counts, failing when more than available_volume is asked. -/
def Position.reduce_position (p : Position) (volume : ℕ) : Bool × Position :=
  if volume ≤ p.available_volume then
    (true, { p with total_volume := p.total_volume - volume,
                    available_volume := p.available_volume - volume })
  else (false, p)

/-- Modelled from the spec: Position.add_position accumulates shares at
weighted-average cost; the new shares are not yet sellable. -/
def Position.add_position (p : Position) (volume : ℕ) (price : ℚ) : Position :=
  let total_cost := p.total_cost + (volume : ℚ) * price
  let total_volume := p.total_volume + volume
  { p with total_volume := total_volume, total_cost := total_cost,
           avg_cost := total_cost / (total_volume : ℚ) }

/-- Modelled from the spec: Position.update_market_data refreshes market
value at the latest price. -/
def Position.update_market_data (p : Position) (price : ℚ) : Position :=
  { p with market_value := (p.total_volume : ℚ) * price, last_price := price }

/-- Modelled from the spec: the external quote snapshot (StockQuote),
with the market-order price fields the engine reads through
get_market_buy_price / get_market_sell_price. -/
structure StockInfo where
  code : String
  name : String
  market : Market
  current_price : ℚ
  limit_up : ℚ
  limit_down : ℚ
  is_suspended : Bool
  buy_side_price : ℚ
  sell_side_price : ℚ
deriving Repr

/-- Modelled from the spec: StockInfo.is_limit_up — already trading at
the cap. -/
def StockInfo.is_limit_up (s : StockInfo) : Bool :=
  s.limit_up ≤ s.current_price

/-- Modelled from the spec: StockInfo.is_limit_down — already trading at
the floor. -/
def StockInfo.is_limit_down (s : StockInfo) : Bool :=
  s.current_price ≤ s.limit_down

/-- Modelled from the spec: StockInfo.can_buy_at_price — requested price
at most limit_up. -/
def StockInfo.can_buy_at_price (s : StockInfo) (price : ℚ) : Bool :=
  price ≤ s.limit_up

/-- Modelled from the spec: StockInfo.can_sell_at_price — requested price
at least limit_down. -/
def StockInfo.can_sell_at_price (s : StockInfo) (price : ℚ) : Bool :=
  s.limit_down ≤ price

/-- Modelled from the spec: StockInfo.get_market_buy_price — the
quote's buy-side price used for a MARKET buy draft. -/
def StockInfo.get_market_buy_price (s : StockInfo) : ℚ := s.buy_side_price

/-- Modelled from the spec: StockInfo.get_market_sell_price. -/
def StockInfo.get_market_sell_price (s : StockInfo) : ℚ := s.sell_side_price

/-- Lot size used by the rules engine (market_rules.py lines 70-74 and
114-118): 100 shares for A-shares, 1 for HK and US. -/
def min_trade_volume (market : Market) : ℕ :=
  if market = .A then 100 else 1

/-- MarketRulesEngine.validate_buy_order (market_rules.py lines 39-83).
`none` means valid; `some msg` carries the first failing check's message
(number formatting elided).  The trading-time check consults
can_place_order at the market-local instant `dt`. -/
def validate_buy_order (cfg : Config) (currentYear : Nat) (dt : LocalDT)
    (stock : StockInfo) (order : Order) (user_balance : ℚ) : Option String :=
  if order.is_market_order && !(can_place_order currentYear dt stock.market).1 then
    some "市价单需要在交易时间内下单"
  else if stock.is_suspended then some "当前停牌，无法交易"
  else if stock.is_limit_up then some "已涨停，无法买入"
  else if !(stock.can_buy_at_price order.order_price) then some "买入价格超出涨停价"
  else
    let total_amount_cny := calculate_buy_amount cfg order.order_volume order.order_price stock.market
    if user_balance < total_amount_cny then some "资金不足"
    else if order.order_volume % min_trade_volume stock.market ≠ 0 then
      some "交易数量必须是最小交易单位的整数倍"
    else
      let min_amount : ℚ :=
        if stock.market = .A then 100 else if stock.market = .HK then 1000 else 100
      if total_amount_cny < min_amount then some "单笔交易金额不能少于最小金额"
      else none

/-- MarketRulesEngine.validate_sell_order (market_rules.py lines 85-120). -/
def validate_sell_order (cfg : Config) (currentYear : Nat) (dt : LocalDT)
    (stock : StockInfo) (order : Order) (position : Option Position) : Option String :=
  if order.is_market_order && !(can_place_order currentYear dt stock.market).1 then
    some "市价单需要在交易时间内下单"
  else
    match position with
    | none => some "您没有持有该股票，无法卖出"
    | some p =>
      if p.is_empty then some "您没有持有该股票，无法卖出"
      else if stock.is_suspended then some "当前停牌，无法交易"
      else if stock.is_limit_down then some "已跌停，无法卖出"
      else if !(stock.can_sell_at_price order.order_price) then some "卖出价格超出跌停价"
      else if !(p.can_sell order.order_volume) then some "可卖数量不足"
      else if order.order_volume % min_trade_volume stock.market ≠ 0 then
        some "交易数量必须是最小交易单位的整数倍"
      else none

/-! Storage collaborator and the trading engine (trading_engine.py).
The storage is modelled from the spec as per-record key-value maps
(association lists); each save replaces the record for its key. -/

/-- Modelled from the spec: the storage collaborator's user, position and
order tables. -/
structure Storage where
  users : List (String × User)
  positions : List ((String × String) × Position)
  orders : List (String × Order)
deriving Repr

/-- Modelled from the spec: storage.get_user. -/
def lookupUser (st : Storage) (uid : String) : Option User :=
  (st.users.find? (fun p => p.1 == uid)).map (fun p => p.2)

/-- Modelled from the spec: storage.save_user (single-record replace). -/
def saveUser (st : Storage) (uid : String) (u : User) : Storage :=
  { st with users := (uid, u) :: st.users.filter (fun p => !(p.1 == uid)) }

/-- Modelled from the spec: storage.get_position. -/
def lookupPosition (st : Storage) (uid code : String) : Option Position :=
  (st.positions.find? (fun p => p.1 == (uid, code))).map (fun p => p.2)

/-- Modelled from the spec: storage.save_position. -/
def savePosition (st : Storage) (uid code : String) (p : Position) : Storage :=
  { st with positions := ((uid, code), p) :: st.positions.filter (fun q => !(q.1 == (uid, code))) }

/-- Modelled from the spec: storage.get_positions — every position of one
user. -/
def userPositions (st : Storage) (uid : String) : List Position :=
  (st.positions.filter (fun p => p.1.1 == uid)).map (fun p => p.2)

/-- Modelled from the spec: storage.get_order. -/
def lookupOrder (st : Storage) (oid : String) : Option Order :=
  (st.orders.find? (fun p => p.1 == oid)).map (fun p => p.2)

/-- Modelled from the spec: storage.save_order. -/
def saveOrder (st : Storage) (oid : String) (o : Order) : Storage :=
  { st with orders := (oid, o) :: st.orders.filter (fun p => !(p.1 == oid)) }

/-- TradingEngine.update_user_assets (trading_engine.py lines 422-459):
total assets = balance plus every position's market value converted to
CNY (A-share values added as-is). -/
def update_user_assets (cfg : Config) (st : Storage) (uid : String) : Storage :=
  match lookupUser st uid with
  | none => st
  | some user =>
    let total_market_value :=
      (userPositions st uid).foldl
        (fun acc p =>
          if p.market = .A then acc + p.market_value
          else acc + p.market_value
            * get_exchange_rate cfg (get_currency_by_market (marketStr p.market)) "CNY")
        0
    saveUser st uid (user.update_total_assets (user.balance + total_market_value))

/-- TradingEngine._execute_buy_order_immediately (trading_engine.py lines
225-290): recompute the cost, re-check funds (returning with no storage
write on failure), then debit, fill, upsert the position (new positions
start with available_volume 0 for T+1) and persist user, position and
order before recomputing total assets. -/
def execute_buy_order_immediately (cfg : Config) (st : Storage) (user : User)
    (order : Order) (stock : StockInfo) : Bool × String × Storage :=
  let total_cost_cny := calculate_buy_amount cfg order.order_volume order.order_price stock.market
  if !(user.can_buy total_cost_cny) then (false, "资金不足", st)
  else
    let user := user.deduct_balance total_cost_cny
    let order := order.fill_order order.order_volume order.order_price
    let position :=
      match lookupPosition st user.user_id order.stock_code with
      | some p => p.add_position order.order_volume order.order_price
      | none =>
        { user_id := user.user_id, stock_code := order.stock_code,
          stock_name := order.stock_name, total_volume := order.order_volume,
          available_volume := 0, avg_cost := order.order_price,
          total_cost := (order.order_volume : ℚ) * order.order_price,
          market_value := (order.order_volume : ℚ) * stock.current_price,
          last_price := stock.current_price, market := stock.market }
    let position := position.update_market_data stock.current_price
    let st := saveUser st user.user_id user
    let st := savePosition st user.user_id order.stock_code position
    let st := saveOrder st order.order_id order
    let st := update_user_assets cfg st user.user_id
    (true, "买入成功", st)

/-- TradingEngine._place_pending_buy_order (trading_engine.py lines
341-367): pre-debit the full settlement amount for the order's market,
persist the pending order and the user, and recompute total assets. -/
def place_pending_buy_order (cfg : Config) (st : Storage) (user : User)
    (order : Order) (stock : StockInfo) : Bool × String × Storage :=
  let total_cost_cny := calculate_buy_amount cfg order.order_volume order.order_price stock.market
  if !(user.can_buy total_cost_cny) then (false, "资金不足", st)
  else
    let user := user.deduct_balance total_cost_cny
    let st := saveOrder st order.order_id order
    let st := saveUser st user.user_id user
    let st := update_user_assets cfg st user.user_id
    (true, "买入挂单成功", st)

/-- TradingEngine.cancel_order (trading_engine.py lines 386-420).  Only a
pending order of the requesting user can be cancelled; for a buy order
the refund is `calculate_buy_amount(order_volume, order_price)` — the
source omits the market argument at line 411, so the refund is computed
with the default market A whatever the order's market was. -/
def cancel_order (cfg : Config) (st : Storage) (user_id order_id : String) :
    Bool × String × Storage :=
  match lookupOrder st order_id with
  | none => (false, "订单不存在", st)
  | some order =>
    if order.user_id ≠ user_id then (false, "无权撤销此订单", st)
    else if !order.is_pending then (false, "订单状态无法撤销", st)
    else
      let order := order.cancel_order
      let st :=
        if order.is_buy_order then
          match lookupUser st user_id with
          | some user =>
            let total_cost := calculate_buy_amount cfg order.order_volume order.order_price .A
            let st := saveUser st user_id (user.add_balance total_cost)
            update_user_assets cfg st user_id
          | none => st
        else st
      let st := saveOrder st order.order_id order
      (true, "订单撤销成功", st)

/-- Draft order built by place_buy_order / place_sell_order before
validation (trading_engine.py lines 56-85 and 162-187): no price means a
MARKET order at the quote's side price, otherwise a LIMIT order. -/
def draft_order (user : User) (stock : StockInfo) (ot : OrderType)
    (volume : ℕ) (priceOpt : Option ℚ) : Order :=
  let market_price :=
    match ot with
    | .buy => stock.get_market_buy_price
    | .sell => stock.get_market_sell_price
  let pp : ℚ × PriceType :=
    match priceOpt with
    | none => (market_price, .market)
    | some q => (q, .limit)
  { order_id := "", user_id := user.user_id, stock_code := stock.code,
    stock_name := stock.name, order_type := ot, price_type := pp.2,
    order_price := pp.1, order_volume := volume, filled_volume := 0,
    filled_amount := 0, status := .pending }

/-- Outcome of the order-dispatch step of place_buy_order /
place_sell_order: rejected with a message, handed to immediate execution
at a price, or persisted pending. -/
inductive OrderOutcome
  | rejected (msg : String)
  | executed (price : ℚ)
  | pending
deriving DecidableEq, Repr

/-- Outcome discriminator for rejections. -/
def OrderOutcome.isRejected : OrderOutcome → Bool
  | .rejected _ => true
  | _ => false

/-- Dispatch logic of TradingEngine.place_buy_order (trading_engine.py
lines 106-134): after validation, a MARKET order requires
can_place_order and executes at the quote's current price; a LIMIT order
executes immediately when the session allows orders and the limit is at
or above the current price, else it is queued pending. -/
def place_buy_order (cfg : Config) (currentYear : Nat) (dt : LocalDT) (user : User)
    (stock : StockInfo) (volume : ℕ) (priceOpt : Option ℚ) : OrderOutcome :=
  let order := draft_order user stock .buy volume priceOpt
  match validate_buy_order cfg currentYear dt stock order user.balance with
  | some msg => .rejected msg
  | none =>
    let can_trade := (can_place_order currentYear dt stock.market).1
    if order.is_market_order then
      if !can_trade then .rejected "市价单只能在交易时间内下单"
      else .executed stock.current_price
    else
      if can_trade && decide (stock.current_price ≤ order.order_price) then
        .executed stock.current_price
      else .pending

/-- Dispatch logic of TradingEngine.place_sell_order (trading_engine.py
lines 202-223): the time gate here is is_trading_time (regular sessions
only), not can_place_order; a MARKET order outside it is rejected, and a
LIMIT order executes immediately only inside it with the limit at or
below the current price. -/
def place_sell_order (cfg : Config) (currentYear : Nat) (dt : LocalDT) (user : User)
    (stock : StockInfo) (position : Option Position) (volume : ℕ)
    (priceOpt : Option ℚ) : OrderOutcome :=
  let order := draft_order user stock .sell volume priceOpt
  match validate_sell_order cfg currentYear dt stock order position with
  | some msg => .rejected msg
  | none =>
    match position with
    | none => .rejected "您没有持有该股票，无法卖出"
    | some _ =>
      let is_tt := is_trading_time currentYear dt stock.market
      if order.is_market_order then
        if !is_tt then .rejected "市价单只能在交易时间内下单"
        else .executed stock.current_price
      else
        if is_tt && decide (order.order_price ≤ stock.current_price) then
          .executed stock.current_price
        else .pending

/-! Concrete scenarios used to evaluate the engine at specific inputs. -/

/-- Sample HK quote: 1000 shares at a 10 HKD limit stay below the
current price 12. -/
def hk_stock : StockInfo :=
  { code := "00700", name := "样本港股", market := .HK, current_price := 12,
    limit_up := 100, limit_down := 0, is_suspended := false,
    buy_side_price := 12, sell_side_price := 12 }

/-- Sample user holding 20000 CNY. -/
def hk_user : User := { user_id := "u1", balance := 20000, total_assets := 20000 }

/-- Pending LIMIT buy of 1000 HK shares at 10 HKD. -/
def hk_order : Order :=
  { order_id := "o1", user_id := "u1", stock_code := "00700", stock_name := "样本港股",
    order_type := .buy, price_type := .limit, order_price := 10, order_volume := 1000,
    filled_volume := 0, filled_amount := 0, status := .pending }

/-- Storage holding only the sample user. -/
def st0 : Storage := { users := [("u1", hk_user)], positions := [], orders := [] }

/-- Storage after the pending HK buy is placed (balance pre-debited). -/
def st1 : Storage := (place_pending_buy_order defaultConfig st0 hk_user hk_order hk_stock).2.2

/-- Storage after that pending order is cancelled. -/
def st2 : Storage := (cancel_order defaultConfig st1 "u1" "o1").2.2

/-- A-share call-auction instant: Monday 2025-06-16 at 09:20 local. -/
def ca_dt : LocalDT := ⟨dateOrdinal 2025 6 16, 560⟩

/-- Sample A-share quote far from its price limits. -/
def ca_stock : StockInfo :=
  { code := "600000", name := "样本A股", market := .A, current_price := 10,
    limit_up := 11, limit_down := 9, is_suspended := false,
    buy_side_price := 10, sell_side_price := 10 }

/-- Sample position fully sellable today. -/
def ca_pos : Position :=
  { user_id := "u", stock_code := "600000", stock_name := "样本A股",
    total_volume := 200, available_volume := 200, avg_cost := 10,
    total_cost := 2000, market_value := 2000, last_price := 10, market := .A }

/-- Sample user with no cash. -/
def ca_user : User := { user_id := "u", balance := 0, total_assets := 0 }

/-- Market buy draft of 100 A-shares at the quote price 10. -/
def c10_order : Order :=
  { order_id := "o9", user_id := "u", stock_code := "600000", stock_name := "样本A股",
    order_type := .buy, price_type := .market, order_price := 10, order_volume := 100,
    filled_volume := 0, filled_amount := 0, status := .pending }

/-- User whose balance 1000 is below the 1006 settlement cost. -/
def c10_user : User := { user_id := "u", balance := 1000, total_assets := 1000 }

/-! Evaluation lemmas for the currency dispatch at the concrete
currency/market strings the engine passes around. -/

/-- Passing the market code "A" (not a currency) to the rate lookup hits
the unsupported-pair fallback 1. -/
theorem gx_cny_a (cfg : Config) : get_exchange_rate cfg "CNY" "A" = 1 := rfl

/-- Passing the market code "HK" (not the currency "HKD") hits the
unsupported-pair fallback 1. -/
theorem gx_cny_hk (cfg : Config) : get_exchange_rate cfg "CNY" "HK" = 1 := rfl

/-- Passing the market code "US" (not the currency "USD") hits the
unsupported-pair fallback 1. -/
theorem gx_cny_us (cfg : Config) : get_exchange_rate cfg "CNY" "US" = 1 := rfl

/-- Same-currency fast path for the settlement currency. -/
theorem gx_cny_cny (cfg : Config) : get_exchange_rate cfg "CNY" "CNY" = 1 := rfl

/-- HKD→CNY reads the configured rate (default 0.92) floored at 0.0001. -/
theorem gx_hkd_cny (cfg : Config) :
    get_exchange_rate cfg "HKD" "CNY" = max (cfg.hkd_to_cny_rate.getD 0.92) 0.0001 := rfl

/-- USD→CNY reads the configured rate (default 7.2) floored at 0.0001. -/
theorem gx_usd_cny (cfg : Config) :
    get_exchange_rate cfg "USD" "CNY" = max (cfg.usd_to_cny_rate.getD 7.2) 0.0001 := rfl

/-- CNY→HKD substitutes the default for a non-positive configured rate
and returns the reciprocal. -/
theorem gx_cny_hkd (cfg : Config) :
    get_exchange_rate cfg "CNY" "HKD"
      = 1 / (if cfg.hkd_to_cny_rate.getD 0.92 ≤ 0 then 0.92 else cfg.hkd_to_cny_rate.getD 0.92) := rfl

/-- CNY→USD substitutes the default for a non-positive configured rate
and returns the reciprocal. -/
theorem gx_cny_usd (cfg : Config) :
    get_exchange_rate cfg "CNY" "USD"
      = 1 / (if cfg.usd_to_cny_rate.getD 7.2 ≤ 0 then 7.2 else cfg.usd_to_cny_rate.getD 7.2) := rfl

/-- Market-code to native-currency mapping, per market. -/
theorem cur_a : get_currency_by_market "A" = "CNY" := rfl

/-- Market-code to native-currency mapping, HK. -/
theorem cur_hk : get_currency_by_market "HK" = "HKD" := rfl

/-- Market-code to native-currency mapping, US. -/
theorem cur_us : get_currency_by_market "US" = "USD" := rfl

/-- Concrete fee evaluation used by several claims: the settlement cost
of 100 A-shares at 10.00 under the default configuration. -/
theorem buy_amount_a_100_10 : calculate_buy_amount defaultConfig 100 10 .A = 1006 := by
  show (((100:ℕ):ℚ) * 10 + max (((100:ℕ):ℚ) * 10 * 0.0003) (5 / 1) + 0
      + max 1 (((100:ℕ):ℚ) * 10 * 0.00002)) * 1 = 1006
  norm_num

/-- Concrete fee evaluation: the settlement cost of 1000 HK shares at
10 HKD under the default configuration (no stamp tax, minimum commission
50 with no currency conversion, rate 0.92). -/
theorem buy_amount_hk_1000_10 : calculate_buy_amount defaultConfig 1000 10 .HK = 9246 := by
  show (((1000:ℕ):ℚ) * 10 + max (((1000:ℕ):ℚ) * 10 * 0.0003) (50 / 1) + 0 + 0)
      * max 0.92 0.0001 = 9246
  norm_num

/-- Concrete fee evaluation: the same 1000-share order priced with the
default market A, as the cancellation path does. -/
theorem buy_amount_a_1000_10 : calculate_buy_amount defaultConfig 1000 10 .A = 10006 := by
  show (((1000:ℕ):ℚ) * 10 + max (((1000:ℕ):ℚ) * 10 * 0.0003) (5 / 1) + 0
      + max 1 (((1000:ℕ):ℚ) * 10 * 0.00002)) * 1 = 10006
  norm_num

/-- C7: with the default configuration (commission rate 0.0003, minimum
commission 5 CNY, transfer fee rate 0.00002), buying 100 A-shares at
10.00 costs exactly 1006 CNY: principal 1000, commission max(0.3, 5) = 5,
transfer fee max(1, 0.02) = 1, stamp tax 0. -/
theorem a_share_buy_fee_example :
    calculate_commission defaultConfig 1000 .A = 5 ∧
    transfer_fee defaultConfig 1000 .A = 1 ∧
    buy_stamp_tax .A = 0 ∧
    calculate_buy_amount defaultConfig 100 10 .A = 1006 := by
  refine ⟨?_, ?_, rfl, buy_amount_a_100_10⟩
  · show max ((1000:ℚ) * 0.0003) (5 / 1) = 5
    norm_num
  · show max 1 ((1000:ℚ) * 0.00002) = 1
    norm_num

/-- C8: converting an amount from any currency string to the same string
is the identity, because the rate for an equal pair is exactly 1. -/
theorem same_currency_conversion_identity (cfg : Config) (c : String) (x : ℚ) :
    convert_amount cfg x c c = x ∧ get_exchange_rate cfg c c = 1 := by
  have h : get_exchange_rate cfg c c = 1 := by
    simp [get_exchange_rate]
  exact ⟨by rw [convert_amount, h, mul_one], h⟩

/-- C3 counterexample: an HK buy carries no stamp tax.  The settlement
amount of 1000 shares at 10 HKD is 9246 CNY — principal 10000 plus the
50 HKD minimum commission, times the 0.92 rate — and differs from the
value the claim's 0.1% buy-side stamp tax would give. -/
theorem hk_buy_stamp_tax_counterexample :
    calculate_buy_amount defaultConfig 1000 10 .HK = 9246 ∧
    (9246 : ℚ) ≠ 0.92 * (1000 * 10 + 50 + 0.001 * (1000 * 10)) := by
  exact ⟨buy_amount_hk_1000_10, by norm_num⟩

/-- C3 as amended: the buy side carries no stamp tax in any market; the
sell side charges the configured A-share rate (default 0.1%), a fixed
0.1% for HK, and nothing for US.  The HK sell of 1000 shares at 10 HKD
nets (10000 − 50 − 10) × 0.92 = 9144.6 CNY, showing the 10 HKD sell-side
stamp component. -/
theorem stamp_tax_schedule (cfg : Config) (amount : ℚ) :
    buy_stamp_tax .A = 0 ∧ buy_stamp_tax .HK = 0 ∧ buy_stamp_tax .US = 0 ∧
    sell_stamp_tax cfg amount .A = amount * cfg.stamp_tax_rate.getD 0.001 ∧
    sell_stamp_tax cfg amount .HK = amount * 0.001 ∧
    sell_stamp_tax cfg amount .US = 0 ∧
    calculate_sell_amount defaultConfig 1000 10 .HK = 0.92 * (1000 * 10 - 50 - 10) := by
  refine ⟨rfl, rfl, rfl, rfl, rfl, rfl, ?_⟩
  show (((1000:ℕ):ℚ) * 10 - max (((1000:ℕ):ℚ) * 10 * 0.0003) (50 / 1)
      - ((1000:ℕ):ℚ) * 10 * 0.001 - 0) * max 0.92 0.0001 = 0.92 * (1000 * 10 - 50 - 10)
  norm_num

/-- C4: the minimum-commission "conversion" divides by
`get_exchange_rate("CNY", market)`, but the market code is not a currency
code, so the pair is unsupported and the rate is 1 for every
configuration: the HK minimum stays 50 in HKD units instead of the
claimed 50 / 0.92 ≈ 54.35 HKD. -/
theorem min_commission_conversion_noop :
    (∀ cfg : Config, get_exchange_rate cfg "CNY" "HK" = 1) ∧
    calculate_commission defaultConfig 1000 .HK = 50 ∧
    (50 : ℚ) ≠ 50 / 0.92 := by
  refine ⟨fun cfg => rfl, ?_, by norm_num⟩
  show max ((1000:ℚ) * 0.0003) (50 / 1) = 50
  norm_num

/-- C5 counterexample: a configured HKD→CNY rate of 0 makes the forward
rate 0.0001 (the floor), not the documented default 0.92; same for
USD→CNY and 7.2. -/
theorem forward_rate_fallback_counterexample :
    get_exchange_rate { hkd_to_cny_rate := some 0 } "HKD" "CNY" = 0.0001 ∧
    (0.0001 : ℚ) ≠ 0.92 ∧
    get_exchange_rate { usd_to_cny_rate := some 0 } "USD" "CNY" = 0.0001 ∧
    (0.0001 : ℚ) ≠ 7.2 := by
  refine ⟨?_, by norm_num, ?_, by norm_num⟩
  · show max (0:ℚ) 0.0001 = 0.0001
    norm_num
  · show max (0:ℚ) 0.0001 = 0.0001
    norm_num

/-- C5 as amended: for a configured base rate v ≤ 0 the forward pairs
return the floor 0.0001 (not the default); the default substitution for
v ≤ 0 happens only on the reverse pairs CNY→HKD and CNY→USD; and the
forward rate never drops below 0.0001 for any configuration. -/
theorem forward_rate_floor_amended (v : ℚ) (hv : v ≤ 0) :
    get_exchange_rate { hkd_to_cny_rate := some v } "HKD" "CNY" = 0.0001 ∧
    get_exchange_rate { usd_to_cny_rate := some v } "USD" "CNY" = 0.0001 ∧
    get_exchange_rate { hkd_to_cny_rate := some v } "CNY" "HKD" = 1 / 0.92 ∧
    get_exchange_rate { usd_to_cny_rate := some v } "CNY" "USD" = 1 / 7.2 ∧
    (∀ cfg : Config, 0.0001 ≤ get_exchange_rate cfg "HKD" "CNY") ∧
    (∀ cfg : Config, 0.0001 ≤ get_exchange_rate cfg "USD" "CNY") := by
  have hv1 : v ≤ 0.0001 := le_trans hv (by norm_num)
  refine ⟨?_, ?_, ?_, ?_, ?_, ?_⟩
  · show max v 0.0001 = 0.0001
    exact max_eq_right hv1
  · show max v 0.0001 = 0.0001
    exact max_eq_right hv1
  · show (1:ℚ) / (if v ≤ 0 then 0.92 else v) = 1 / 0.92
    rw [if_pos hv]
  · show (1:ℚ) / (if v ≤ 0 then 7.2 else v) = 1 / 7.2
    rw [if_pos hv]
  · intro cfg
    rw [gx_hkd_cny]
    exact le_max_right _ _
  · intro cfg
    rw [gx_usd_cny]
    exact le_max_right _ _

/-- C5 witness: the amended statement instantiated at the configured
rate 0. -/
theorem forward_rate_floor_amended_witness :
    get_exchange_rate { hkd_to_cny_rate := some 0 } "HKD" "CNY" = 0.0001 ∧
    get_exchange_rate { usd_to_cny_rate := some 0 } "USD" "CNY" = 0.0001 ∧
    get_exchange_rate { hkd_to_cny_rate := some 0 } "CNY" "HKD" = 1 / 0.92 ∧
    get_exchange_rate { usd_to_cny_rate := some 0 } "CNY" "USD" = 1 / 7.2 ∧
    (∀ cfg : Config, 0.0001 ≤ get_exchange_rate cfg "HKD" "CNY") ∧
    (∀ cfg : Config, 0.0001 ≤ get_exchange_rate cfg "USD" "CNY") :=
  forward_rate_floor_amended 0 (le_refl 0)

/-- C2 counterexample: 02:00 local on Sunday 2025-06-15.  The previous
calendar date (Saturday 2025-06-14) is not a trading day, so the claim
says CLOSED, but the source checks the next calendar date (Monday
2025-06-16, a trading day) and classifies the instant overnight-tradable. -/
theorem overnight_second_half_counterexample :
    is_overnight_trading_time 2025 ⟨dateOrdinal 2025 6 15, 120⟩ .US = true ∧
    is_trading_day 2025 (dateOrdinal 2025 6 14) .US = false ∧
    (120 : ℕ) ≤ 240 := by
  decide

/-- C2 as amended: an instant whose local time-of-day lies in the
overnight second half [00:00, 04:00] is overnight-tradable iff the NEXT
local calendar date (current date + 1) is a trading day. -/
theorem overnight_second_half_uses_next_date (y : ℕ) (dt : LocalDT) (h : dt.minute ≤ 240) :
    (is_overnight_trading_time y dt .US = true ↔
      is_trading_day y (dt.ordinal + 1) .US = true) := by
  have hne : ¬ (Market.US ≠ Market.US) := by simp
  have h1 : ¬ (1200 ≤ dt.minute ∧ dt.minute ≤ 1439) := by omega
  simp only [is_overnight_trading_time, overnight_sessions, if_neg hne, if_neg h1, if_pos h]
  cases htd : is_trading_day y (dt.ordinal + 1) .US with
  | false => simp
  | true => simp [h]

/-- C2 witness: the amended statement at the concrete instant 02:00 on
2025-06-15. -/
theorem overnight_second_half_uses_next_date_witness :
    is_overnight_trading_time 2025 ⟨dateOrdinal 2025 6 15, 120⟩ .US = true ↔
      is_trading_day 2025 (dateOrdinal 2025 6 15 + 1) .US = true :=
  overnight_second_half_uses_next_date 2025 ⟨dateOrdinal 2025 6 15, 120⟩ (by decide)

/-- C9: the parameter layer accepts a volume only when it is positive and
a multiple of 100, with no market input anywhere in the parser; a
one-share order is rejected there even though the rules engine's lot
size for HK and US is 1. -/
theorem volume_validation_lot100 :
    (∀ (params : List String) (v : Int),
      (parse_order_params params).volume = some v → 0 < v ∧ v % 100 = 0) ∧
    (parse_order_params ["00700", "1"]).error = some "无效的交易数量，必须是100的倍数" ∧
    (parse_order_params ["00700", "1"]).volume = none ∧
    min_trade_volume .HK = 1 ∧ min_trade_volume .US = 1 := by
  have key : ∀ (ps : List String) (v : Int),
      (parse_order_params ps).volume = some v → is_valid_volume v = true := by
    intro ps v h
    unfold parse_order_params at h
    repeat' split at h
    all_goals simp_all
  refine ⟨?_, by decide, by decide, rfl, rfl⟩
  intro params v h
  have hvv := key params v h
  simp only [is_valid_volume, Bool.and_eq_true, decide_eq_true_eq, beq_iff_eq] at hvv
  exact ⟨hvv.1, hvv.2⟩

/-- C9 witness: a (code, volume) pair accepted by the parser indeed has a
positive volume that is a multiple of 100. -/
theorem volume_validation_lot100_witness :
    0 < (200 : Int) ∧ (200 : Int) % 100 = 0 :=
  volume_validation_lot100.1 ["600000", "200"] 200 (by decide)

/-! Storage-flow lemmas: which records each save touches. -/

/-- Looking up a user just saved returns that user. -/
theorem lookupUser_saveUser_same (st : Storage) (uid : String) (u : User) :
    lookupUser (saveUser st uid u) uid = some u := by
  simp [lookupUser, saveUser]

/-- Saving an order leaves the user table untouched. -/
theorem lookupUser_saveOrder (st : Storage) (oid : String) (o : Order) (uid : String) :
    lookupUser (saveOrder st oid o) uid = lookupUser st uid := rfl

/-- Saving a user leaves the order table untouched. -/
theorem lookupOrder_saveUser (st : Storage) (uid : String) (u : User) (oid : String) :
    lookupOrder (saveUser st uid u) oid = lookupOrder st oid := rfl

/-- Looking up an order just saved returns that order. -/
theorem lookupOrder_saveOrder_same (st : Storage) (oid : String) (o : Order) :
    lookupOrder (saveOrder st oid o) oid = some o := by
  simp [lookupOrder, saveOrder]

/-- Recomputing total assets touches no order record. -/
theorem lookupOrder_update_assets (cfg : Config) (st : Storage) (uid oid : String) :
    lookupOrder (update_user_assets cfg st uid) oid = lookupOrder st oid := by
  unfold update_user_assets
  cases h : lookupUser st uid with
  | none => rfl
  | some u => rfl

/-- Recomputing total assets rewrites total_assets but never the cash
balance. -/
theorem balance_update_assets (cfg : Config) (st : Storage) (uid : String) :
    (lookupUser (update_user_assets cfg st uid) uid).map User.balance
      = (lookupUser st uid).map User.balance := by
  unfold update_user_assets
  cases h : lookupUser st uid with
  | none => simp [h]
  | some u => rw [lookupUser_saveUser_same]; rfl

/-- Balance and order record written by a successful pending-buy
placement: the user's balance is debited by the settlement amount for
the order's own market and the order is persisted. -/
theorem pending_buy_flow (cfg : Config) (st : Storage) (user : User) (order : Order)
    (stock : StockInfo)
    (h : user.can_buy (calculate_buy_amount cfg order.order_volume order.order_price stock.market) = true) :
    (lookupUser (place_pending_buy_order cfg st user order stock).2.2 user.user_id).map User.balance
        = some (user.balance - calculate_buy_amount cfg order.order_volume order.order_price stock.market) ∧
    lookupOrder (place_pending_buy_order cfg st user order stock).2.2 order.order_id = some order := by
  have hid : ∀ (v : User) (a : ℚ), (v.deduct_balance a).user_id = v.user_id :=
    fun _ _ => rfl
  unfold place_pending_buy_order
  simp only [h, Bool.not_true, Bool.false_eq_true, if_false, hid]
  constructor
  · rw [balance_update_assets, lookupUser_saveUser_same]
    rfl
  · rw [lookupOrder_update_assets, lookupOrder_saveUser, lookupOrder_saveOrder_same]

/-- Balance written by cancelling a pending buy order: whatever the
order's market, the refund added to the stored balance is the
settlement amount recomputed for the default market A. -/
theorem cancel_refund_flow (cfg : Config) (st : Storage) (uid : String) (o : Order) (u : User)
    (ho : lookupOrder st o.order_id = some o) (hu : o.user_id = uid)
    (hp : o.is_pending = true) (hb : o.is_buy_order = true)
    (huser : lookupUser st uid = some u) :
    (lookupUser (cancel_order cfg st uid o.order_id).2.2 uid).map User.balance
      = some (u.balance + calculate_buy_amount cfg o.order_volume o.order_price .A) := by
  have hb2 : (o.cancel_order).is_buy_order = true := hb
  unfold cancel_order
  rw [ho]
  simp only [hu, ne_eq, eq_self_iff_true, not_true, if_false, hp, Bool.not_true,
    Bool.false_eq_true, hb2, if_true, huser]
  rw [lookupUser_saveOrder, balance_update_assets, lookupUser_saveUser_same]
  rfl

/-- C10: the immediate-buy path re-checks funds after validation; when
the balance is below the recomputed settlement cost it fails and writes
nothing — the storage is returned unchanged. -/
theorem buy_execution_funds_recheck_atomic (cfg : Config) (st : Storage) (user : User)
    (order : Order) (stock : StockInfo)
    (h : user.balance < calculate_buy_amount cfg order.order_volume order.order_price stock.market) :
    (execute_buy_order_immediately cfg st user order stock).1 = false ∧
    (execute_buy_order_immediately cfg st user order stock).2.2 = st := by
  have hcb : user.can_buy (calculate_buy_amount cfg order.order_volume order.order_price stock.market) = false := by
    simp only [User.can_buy, decide_eq_false_iff_not, not_le]
    exact h
  constructor <;> simp [execute_buy_order_immediately, hcb]

/-- Concrete shortfall: a balance of 1000 is below the 1006 settlement
cost of the sample A-share market buy. -/
theorem c10_balance_lt :
    c10_user.balance < calculate_buy_amount defaultConfig c10_order.order_volume
      c10_order.order_price ca_stock.market := by
  have e : calculate_buy_amount defaultConfig c10_order.order_volume
      c10_order.order_price ca_stock.market = 1006 := buy_amount_a_100_10
  rw [e]
  show (1000 : ℚ) < 1006
  norm_num

/-- C10 witness: the atomic failure at the concrete shortfall. -/
theorem buy_execution_funds_recheck_atomic_witness :
    (execute_buy_order_immediately defaultConfig st0 c10_user c10_order ca_stock).1 = false ∧
    (execute_buy_order_immediately defaultConfig st0 c10_user c10_order ca_stock).2.2 = st0 :=
  buy_execution_funds_recheck_atomic defaultConfig st0 c10_user c10_order ca_stock c10_balance_lt

/-- C1: placing the pending HK limit buy debits 9246 CNY (the HK
settlement amount), but cancelling it refunds the amount recomputed for
the default market A, 10006 CNY: the balance ends at
20000 − 9246 + 10006 = 20760 ≠ 20000, the pre-order balance, and the
refund is not the debited amount. -/
theorem cancel_order_refund_ignores_market :
    calculate_buy_amount defaultConfig 1000 10 .HK = 9246 ∧
    calculate_buy_amount defaultConfig 1000 10 .A = 10006 ∧
    (lookupUser st1 "u1").map User.balance = some (20000 - 9246) ∧
    (lookupUser st2 "u1").map User.balance = some ((20000 - 9246) + 10006) ∧
    ((20000 : ℚ) - 9246) + 10006 ≠ 20000 := by
  have e9246 : calculate_buy_amount defaultConfig hk_order.order_volume
      hk_order.order_price hk_stock.market = 9246 := buy_amount_hk_1000_10
  have e10006 : calculate_buy_amount defaultConfig hk_order.order_volume
      hk_order.order_price .A = 10006 := buy_amount_a_1000_10
  have hcb : hk_user.can_buy (calculate_buy_amount defaultConfig hk_order.order_volume
      hk_order.order_price hk_stock.market) = true := by
    rw [e9246]
    show decide ((9246 : ℚ) ≤ 20000) = true
    simp only [decide_eq_true_eq]
    norm_num
  have hflow := pending_buy_flow defaultConfig st0 hk_user hk_order hk_stock hcb
  have hbal1 : (lookupUser st1 "u1").map User.balance = some (20000 - 9246) := by
    have h1 := hflow.1
    rw [e9246] at h1
    exact h1
  have hord1 : lookupOrder st1 hk_order.order_id = some hk_order := hflow.2
  cases hlu : lookupUser st1 "u1" with
  | none => rw [hlu] at hbal1; simp at hbal1
  | some u =>
    have hubal : u.balance = 20000 - 9246 := by
      have hb := hbal1
      rw [hlu] at hb
      simpa using hb
    have hcancel := cancel_refund_flow defaultConfig st1 "u1" hk_order u hord1 rfl rfl rfl hlu
    rw [e10006, hubal] at hcancel
    exact ⟨buy_amount_hk_1000_10, buy_amount_a_1000_10, by simp [hubal], hcancel, by norm_num⟩

/-- C6 counterexample: at 09:20 on Monday 2025-06-16 the A-share session
allows order placement (call auction), yet a validated MARKET sell is
rejected, because the sell path gates on is_trading_time (regular
sessions only) instead of can_place_order. -/
theorem market_sell_call_auction_counterexample :
    (can_place_order 2025 ca_dt ca_stock.market).1 = true ∧
    place_sell_order defaultConfig 2025 ca_dt ca_user ca_stock (some ca_pos) 100 none
      = .rejected "市价单只能在交易时间内下单" := by
  have hcp : (can_place_order 2025 ca_dt Market.A).1 = true := by decide
  have hit : is_trading_time 2025 ca_dt Market.A = false := by decide
  have hval : validate_sell_order defaultConfig 2025 ca_dt ca_stock
      (draft_order ca_user ca_stock .sell 100 none) (some ca_pos) = none := by
    norm_num [validate_sell_order, draft_order, Order.is_market_order, Position.is_empty,
      Position.can_sell, StockInfo.is_limit_down, StockInfo.can_sell_at_price,
      StockInfo.get_market_sell_price, min_trade_volume, ca_stock, ca_pos, hcp]
  refine ⟨hcp, ?_⟩
  simp [place_sell_order, hval, hit, show ca_stock.market = Market.A from rfl,
    show (draft_order ca_user ca_stock .sell 100 none).is_market_order = true from rfl]

/-- C6 as amended: a MARKET buy is rejected whenever can_place_order is
false and, when it is true and validation passes, is executed
immediately at the quote's current price; a MARKET sell is rejected
whenever is_trading_time (regular sessions only) is false — even in
sessions where orders may be placed — and, when is_trading_time is true
and validation passes, is executed immediately at the current price. -/
theorem market_order_time_gates (cfg : Config) (y : ℕ) (dt : LocalDT) (user : User)
    (stock : StockInfo) (pos : Option Position) (volume : ℕ) :
    ((can_place_order y dt stock.market).1 = false →
      (place_buy_order cfg y dt user stock volume none).isRejected = true) ∧
    ((can_place_order y dt stock.market).1 = true →
      validate_buy_order cfg y dt stock (draft_order user stock .buy volume none) user.balance = none →
      place_buy_order cfg y dt user stock volume none = .executed stock.current_price) ∧
    (is_trading_time y dt stock.market = false →
      (place_sell_order cfg y dt user stock pos volume none).isRejected = true) ∧
    (is_trading_time y dt stock.market = true →
      validate_sell_order cfg y dt stock (draft_order user stock .sell volume none) pos = none →
      place_sell_order cfg y dt user stock pos volume none = .executed stock.current_price) := by
  refine ⟨?_, ?_, ?_, ?_⟩
  · intro hcp
    have hval : validate_buy_order cfg y dt stock (draft_order user stock .buy volume none)
        user.balance = some "市价单需要在交易时间内下单" := by
      unfold validate_buy_order
      simp [show (draft_order user stock .buy volume none).is_market_order = true from rfl, hcp]
    simp [place_buy_order, hval, OrderOutcome.isRejected]
  · intro hcp hval
    simp [place_buy_order, hval, hcp,
      show (draft_order user stock .buy volume none).is_market_order = true from rfl]
  · intro hit
    cases hval : validate_sell_order cfg y dt stock (draft_order user stock .sell volume none) pos with
    | some msg => simp [place_sell_order, hval, OrderOutcome.isRejected]
    | none =>
      cases pos with
      | none => simp [place_sell_order, hval, OrderOutcome.isRejected]
      | some p =>
        simp [place_sell_order, hval, hit, OrderOutcome.isRejected,
          show (draft_order user stock .sell volume none).is_market_order = true from rfl]
  · intro hit hval
    cases pos with
    | none =>
      exfalso
      unfold validate_sell_order at hval
      split at hval
      · simp at hval
      · simp at hval
    | some p =>
      simp [place_sell_order, hval, hit,
        show (draft_order user stock .sell volume none).is_market_order = true from rfl]

/-- C6 witness: on Saturday 2025-06-14 at 10:00, where neither gate is
open, both market-order paths reject. -/
theorem market_order_time_gates_witness :
    (place_buy_order defaultConfig 2025 ⟨dateOrdinal 2025 6 14, 600⟩ ca_user ca_stock
      100 none).isRejected = true ∧
    (place_sell_order defaultConfig 2025 ⟨dateOrdinal 2025 6 14, 600⟩ ca_user ca_stock
      (some ca_pos) 100 none).isRejected = true :=
  ⟨(market_order_time_gates defaultConfig 2025 ⟨dateOrdinal 2025 6 14, 600⟩ ca_user
      ca_stock (some ca_pos) 100).1 (by decide),
   (market_order_time_gates defaultConfig 2025 ⟨dateOrdinal 2025 6 14, 600⟩ ca_user
      ca_stock (some ca_pos) 100).2.2.1 (by decide)⟩

end PaperTrading
